import Mathlib

/-!
Verification of the Privacy Badger for Firefox policy decision engine
(`lib/contentPolicy.js`, `lib/utils.js`) and per-context settings ledger
(`lib/ui.js`) against its natural-language specification.

Modelling conventions:
* JS string sets (objects used with the `in` operator) become `List String`
  with list membership.
* An uncaught JS exception is modelled by `none` in an `Option` result.
* Side effects (decision events emitted on `settingsMap`, cookie clobbering
  via `cookieUtils.clobberCookie`) are collected in an explicit `Trace`.
* The era-appropriate SpiderMonkey `WeakMap.prototype.get(key, default)`
  two-argument form (used as `settingsMap.get(aWin, {})`) is modelled by
  `ledgerGet` with an explicit default.
-/

namespace PB

/-- Value stored under one key of a per-window settings object: either an
action tag string (`"block"`, `"userblock"`, ...) or the boolean used by the
`cleared: true` sentinel. -/
inductive SVal where
  | tag : String → SVal
  | flag : Bool → SVal
deriving DecidableEq, Repr

/-- A JS object mapping origins (and possibly the key `"cleared"`) to values,
as stored per window in `settingsMap`. -/
abbrev SettingsObj := List (String × SVal)

/-- Assignment `obj[k] = v` on a JS object: overwrite the existing key or
append a new one. -/
def objSet : SettingsObj → String → SVal → SettingsObj
  | [], k, v => [(k, v)]
  | (k1, v1) :: rest, k, v =>
      if k1 = k then (k, v) :: rest else (k1, v1) :: objSet rest k v

/-- Lookup `obj[k]` on a JS object. -/
def objGet : SettingsObj → String → Option SVal
  | [], _ => none
  | (k1, v1) :: rest, k => if k1 = k then some v1 else objGet rest k

/-- A top-level (`window.top`) DOM window: an identity (WeakMap keys compare
by object identity) and `location.href` (`none` models a missing location or
href; the empty string models a falsy href). -/
structure TopWin where
  tid : Nat
  href : Option String
deriving DecidableEq, Repr

/-- The DOM window derived from a `shouldLoad` context node; `top = none`
models a null `window.top`. -/
structure Window where
  wid : Nat
  top : Option TopWin
deriving DecidableEq, Repr

/-- The `settingsMap` WeakMap, keyed by top-window identity. -/
abbrev Ledger := List (Nat × SettingsObj)

/-- `settingsMap.get(key, default)` (old SpiderMonkey two-argument form). -/
def ledgerGet : Ledger → Nat → SettingsObj → SettingsObj
  | [], _, d => d
  | (k1, v1) :: rest, k, d => if k1 = k then v1 else ledgerGet rest k d

/-- `settingsMap.set(key, value)`. -/
def ledgerSet : Ledger → Nat → SettingsObj → Ledger
  | [], k, v => [(k, v)]
  | (k1, v1) :: rest, k, v =>
      if k1 = k then (k, v) :: rest else (k1, v1) :: ledgerSet rest k v

/-- `settingsMap.delete(key)`. -/
def ledgerDelete (l : Ledger) (k : Nat) : Ledger :=
  l.filter (fun p => p.1 ≠ k)

/-- One decision event `emit(settingsMap, "update-settings", msg, window,
host)`; `win = none` when the emitting policy check held no window. -/
structure DecisionEvent where
  tag : String
  win : Option Window
  origin : String
deriving DecidableEq, Repr

/-- Collected side effects of a policy evaluation: decision events emitted on
`settingsMap` and hosts passed to `cookieUtils.clobberCookie`. -/
structure Trace where
  events : List DecisionEvent
  clobbered : List String
deriving DecidableEq, Repr

/-- The empty trace. -/
def Trace.empty : Trace := ⟨[], []⟩

/-- Concatenation of traces, in execution order. -/
def Trace.append (t1 t2 : Trace) : Trace :=
  ⟨t1.events ++ t2.events, t1.clobbered ++ t2.clobbered⟩

/-- The rule lists held in `simple-storage` (`storage.preloads`,
`storage.blockedOrigins` and the three user sets). -/
structure Storage where
  preloads : List String
  blockedOrigins : List String
  userRed : List String
  userYellow : List String
  userGreen : List String
deriving DecidableEq, Repr

/-- An `nsIURI` as consumed by the policy: its scheme, host and full spec. -/
structure Uri where
  scheme : String
  host : String
  spec : String
deriving DecidableEq, Repr

/-- External platform collaborators: the public-suffix base-domain lookup
(`ThirdPartyUtil.getBaseDomain`, applied to the URI host), whether
`ABPUtils.makeURI` succeeds on a URL string, and the platform third-party
comparison `ThirdPartyUtil.isThirdPartyURI` on two parseable URLs. -/
structure Env where
  baseDomain : String → String
  parses : String → Bool
  thirdPartyURI : String → String → Bool

/-- Content-policy verdict constants `ACCEPT` / `REJECT_REQUEST`. -/
inductive Verdict where
  | ACCEPT
  | REJECT
deriving DecidableEq, Repr

/-- The request content type; only `TYPE_DOCUMENT` is distinguished by the
policy. -/
inductive CType where
  | document
  | other
deriving DecidableEq, Repr

/-- `utils.isThirdPartyURI(uri, docUri)`: both URL strings are run through
`ABPUtils.makeURI` and handed to the platform comparison. There is no
try/catch: a parse failure propagates as an exception (`none`). -/
def isThirdPartyURI (env : Env) (uri docUri : String) : Option Bool :=
  if env.parses uri then
    if env.parses docUri then some (env.thirdPartyURI uri docUri)
    else none
  else none

namespace Policy

/-- `Policy.whitelistSchemes` from `contentPolicy.js`. -/
def whitelistSchemes : List String :=
  ["about", "chrome", "file", "irc", "moz-safe-about", "news", "resource",
   "snews", "x-jsd", "addbook", "cid", "imap", "mailbox", "nntp", "pop",
   "data", "javascript", "moz-icon"]

/-- `Policy.hasWhitelistedScheme(location)`. -/
def hasWhitelistedScheme (location : Uri) : Bool :=
  location.scheme ∈ whitelistSchemes

/-- Events emitted by the user-list checks, which are guarded by
`if (window)`. -/
def emitIf (window : Option Window) (tag host : String) : List DecisionEvent :=
  match window with
  | some w => [⟨tag, some w, host⟩]
  | none => []

/-- `Policy.isUserRedRequest(location, window)`: true when the host is in
`userRed`; emits `userblock` only when a window is present. -/
def isUserRedRequest (st : Storage) (location : Uri) (window : Option Window) :
    Bool × Trace :=
  if location.host ∈ st.userRed then
    (true, ⟨emitIf window "userblock" location.host, []⟩)
  else (false, Trace.empty)

/-- `Policy.isUserYellowRequest(location, window)`: an exact host match in
`userYellow` returns true and emits `usercookieblock` (window permitting)
without clobbering; otherwise a base-domain match additionally clobbers the
host's cookie. -/
def isUserYellowRequest (env : Env) (st : Storage) (location : Uri)
    (window : Option Window) : Bool × Trace :=
  if location.host ∈ st.userYellow then
    (true, ⟨emitIf window "usercookieblock" location.host, []⟩)
  else if env.baseDomain location.host ∈ st.userYellow then
    (true, ⟨emitIf window "usercookieblock" location.host, [location.host]⟩)
  else (false, Trace.empty)

/-- `Policy.isUserGreenRequest(location, window)`. -/
def isUserGreenRequest (st : Storage) (location : Uri)
    (window : Option Window) : Bool × Trace :=
  if location.host ∈ st.userGreen then
    (true, ⟨emitIf window "usernoaction" location.host, []⟩)
  else (false, Trace.empty)

/-- `Policy.shouldIgnoreRequest(location, window)`: returns the name of the
matching "filter" (`userGreen`, `userYellow`, `preloads`) or `none`. -/
def shouldIgnoreRequest (env : Env) (st : Storage) (location : Uri)
    (window : Option Window) : Option String × Trace :=
  let g := isUserGreenRequest st location window
  if g.1 then (some "userGreen", g.2)
  else
    let y := isUserYellowRequest env st location window
    if y.1 then (some "userYellow", g.2.append y.2)
    else if location.host ∈ st.preloads then
      (some "preloads", g.2.append y.2)
    else (none, g.2.append y.2)

/-- `Policy.heuristicBlocksRequest(location, window)`: base domain on the
heuristic blocklist; the `block` event is emitted with whatever window was
passed, without a window guard. -/
def heuristicBlocksRequest (env : Env) (st : Storage) (location : Uri)
    (window : Option Window) : Bool × Trace :=
  if env.baseDomain location.host ∈ st.blockedOrigins then
    (true, ⟨[⟨"block", window, location.host⟩], []⟩)
  else (false, Trace.empty)

/-- `Policy.heuristicCookieblocksRequest(location, window)`: host or base
domain preloaded AND base domain heuristically blocked cookieblocks (with a
clobber); preloaded but not blocked emits `noaction` and returns false. -/
def heuristicCookieblocksRequest (env : Env) (st : Storage) (location : Uri)
    (window : Option Window) : Bool × Trace :=
  if location.host ∈ st.preloads ∨ env.baseDomain location.host ∈ st.preloads then
    if env.baseDomain location.host ∈ st.blockedOrigins then
      (true, ⟨[⟨"cookieblock", window, location.host⟩], [location.host]⟩)
    else (false, ⟨[⟨"noaction", window, location.host⟩], []⟩)
  else (false, Trace.empty)

/-- `Policy.subdomainCookieblocksRequest(location, window)`. -/
def subdomainCookieblocksRequest (env : Env) (st : Storage) (location : Uri)
    (window : Option Window) : Bool × Trace :=
  if env.baseDomain location.host ∈ st.userRed ∨
     env.baseDomain location.host ∈ st.blockedOrigins then
    (true, ⟨[⟨"cookieblock", window, location.host⟩], [location.host]⟩)
  else (false, Trace.empty)

/-- `Policy.isBlockableRequest(location, window, channel, contentType)`.
`channel` carries the pre-computed result of `utils.isThirdPartyChannel`
(which itself catches and returns false); `shouldLoad` always passes null.
Result `none` models the uncaught `TypeError` from `window.top` when the
window is null. On an exception from `utils.isThirdPartyURI` the local
`isThirdParty`, initialised to `true`, is left unchanged. -/
def isBlockableRequest (env : Env) (location : Uri) (window : Option Window)
    (channel : Option Bool) (contentType : CType) : Option Bool :=
  if hasWhitelistedScheme location then some false
  else
    match channel with
    | some tp => some tp
    | none =>
      if contentType = CType.document then some false
      else
        match window with
        | none => none
        | some w =>
          match w.top with
          | none => some false
          | some tw =>
            match tw.href with
            | none => some false
            | some topHref =>
              if topHref = "" then some false
              else
                match isThirdPartyURI env location.spec topHref with
                | some b => some b
                | none => some true

/-- `Policy.shouldBlockRequest(location, window)`: short-circuit OR of the
user-red and heuristic block checks, side effects of executed checks kept. -/
def shouldBlockRequest (env : Env) (st : Storage) (location : Uri)
    (window : Option Window) : Bool × Trace :=
  let r := isUserRedRequest st location window
  if r.1 then (true, r.2)
  else
    let h := heuristicBlocksRequest env st location window
    (h.1, r.2.append h.2)

/-- `Policy.shouldCookieblockRequest(location, window)`: short-circuit OR of
the user-yellow, heuristic and subdomain cookieblock checks, side effects of
executed checks kept. -/
def shouldCookieblockRequest (env : Env) (st : Storage) (location : Uri)
    (window : Option Window) : Bool × Trace :=
  let y := isUserYellowRequest env st location window
  if y.1 then (true, y.2)
  else
    let h := heuristicCookieblocksRequest env st location window
    if h.1 then (true, y.2.append h.2)
    else
      let s := subdomainCookieblocksRequest env st location window
      (s.1, y.2.append (h.2.append s.2))

end Policy

/-- `ContentPolicy.shouldLoad` from `contentPolicy.js`: the whitelist and
first-party gate, then user red, then the ignore rules, then the heuristic
block, else accept. `none` models an uncaught exception. -/
def shouldLoad (env : Env) (st : Storage) (location : Uri)
    (window : Option Window) (contentType : CType) :
    Option (Verdict × Trace) :=
  match Policy.isBlockableRequest env location window none contentType with
  | none => none
  | some false => some (Verdict.ACCEPT, Trace.empty)
  | some true =>
    let r := Policy.isUserRedRequest st location window
    if r.1 then some (Verdict.REJECT, r.2)
    else
      let ig := Policy.shouldIgnoreRequest env st location window
      match ig.1 with
      | some _ => some (Verdict.ACCEPT, r.2.append ig.2)
      | none =>
        let h := Policy.heuristicBlocksRequest env st location window
        if h.1 then some (Verdict.REJECT, r.2.append (ig.2.append h.2))
        else some (Verdict.ACCEPT, r.2.append (ig.2.append h.2))

/-- `updateSettingsListener(msg, aWin, aOrigin)` from `ui.js`: bail out on a
missing window or falsy (empty) origin, rekey on `aWin.top`, upsert
`setting[aOrigin] = msg`. A null `aWin.top` makes the mutation throw inside
the listener, which the SDK `emit` catches, leaving the map unchanged. -/
def updateSettingsListener (l : Ledger) (msg : String) (aWin : Option Window)
    (aOrigin : String) : Ledger :=
  match aWin with
  | none => l
  | some w =>
    if aOrigin = "" then l
    else
      match w.top with
      | none => l
      | some tw =>
        let setting := ledgerGet l tw.tid []
        ledgerSet l tw.tid (objSet setting aOrigin (SVal.tag msg))

/-- Delivery of a decision event to the registered `update-settings`
listener. -/
def applyEvent (l : Ledger) (e : DecisionEvent) : Ledger :=
  updateSettingsListener l e.tag e.win e.origin

/-- Delivery of a list of decision events, in emission order. -/
def applyEvents (l : Ledger) (es : List DecisionEvent) : Ledger :=
  es.foldl applyEvent l

/-- `clearSettingsListener(aWin)` from `ui.js`: `settingsMap.delete(aWin)`,
invoked on location change. -/
def clearSettingsListener (l : Ledger) (aWin : TopWin) : Ledger :=
  ledgerDelete l aWin.tid

/-- `nsIWebProgressListener.LOCATION_CHANGE_SAME_DOCUMENT`. -/
def LOCATION_CHANGE_SAME_DOCUMENT : Nat := 1

/-- `PBListener.onLocationChange` from `ui.js`: clear the window's settings
unless the change is a same-document change. -/
def onLocationChange (l : Ledger) (aWin : TopWin) (aFlags : Nat) : Ledger :=
  if aFlags = 0 ∨ aFlags ≠ LOCATION_CHANGE_SAME_DOCUMENT then
    clearSettingsListener l aWin
  else l

/-- `getCurrentSettings()` from `ui.js`, with the most recent content window
made explicit: `settingsMap.get(topContentWindow, {})`. -/
def getCurrentSettings (l : Ledger) (topContentWindow : TopWin) : SettingsObj :=
  ledgerGet l topContentWindow.tid []

namespace userStorage

/-- Modelled from the spec: `userStorage.clearOrigin` (file
`lib/userStorage.js` is not among the provided sources); per §4.3, `reset`
removes the origin from all user-curated sets. -/
def clearOrigin (st : Storage) (origin : String) : Storage :=
  { st with
    userRed := st.userRed.filter (fun x => x ≠ origin),
    userYellow := st.userYellow.filter (fun x => x ≠ origin),
    userGreen := st.userGreen.filter (fun x => x ≠ origin) }

/-- Modelled from the spec: `userStorage.addRed` (file `lib/userStorage.js`
is not among the provided sources); per §4.3, `block` adds the origin to
`userRed`. -/
def addRed (st : Storage) (origin : String) : Storage :=
  { st with
    userRed := if origin ∈ st.userRed then st.userRed else origin :: st.userRed }

/-- Modelled from the spec: `userStorage.addYellow` (file
`lib/userStorage.js` is not among the provided sources); per §4.3,
`cookieblock` adds the origin to `userYellow`. -/
def addYellow (st : Storage) (origin : String) : Storage :=
  { st with
    userYellow :=
      if origin ∈ st.userYellow then st.userYellow else origin :: st.userYellow }

/-- Modelled from the spec: `userStorage.addGreen` (file `lib/userStorage.js`
is not among the provided sources); per §4.3, `noaction` adds the origin to
`userGreen`. -/
def addGreen (st : Storage) (origin : String) : Storage :=
  { st with
    userGreen :=
      if origin ∈ st.userGreen then st.userGreen else origin :: st.userGreen }

end userStorage

/-- One arm of the `switch` in `handleNewSettings` from `ui.js`: an
unrecognized action falls through every case and changes nothing. -/
def applyEdit (st : Storage) (origin action : String) : Storage :=
  if action = "reset" then userStorage.clearOrigin st origin
  else if action = "block" then userStorage.addRed st origin
  else if action = "cookieblock" then userStorage.addYellow st origin
  else if action = "noaction" then userStorage.addGreen st origin
  else st

/-- `handleNewSettings(settings)` from `ui.js`: apply every staged
origin-action pair to user storage (an empty staging object is a no-op). -/
def handleNewSettings (st : Storage) (settings : List (String × String)) :
    Storage :=
  settings.foldl (fun s p => applyEdit s p.1 p.2) st

/-- `handleUpdate(data)` from `ui.js`: `changedSettings[data.origin] =
data.action`, staged as a JS object keyed by origin. -/
def stageEdit (staged : List (String × String)) (origin action : String) :
    List (String × String) :=
  match staged with
  | [] => [(origin, action)]
  | (o1, a1) :: rest =>
    if o1 = origin then (origin, action) :: rest
    else (o1, a1) :: stageEdit rest origin action

/-- One full evaluation of a request through `ContentPolicy.shouldLoad`
together with the ledger updates produced by the emitted decision events. -/
def evaluateOnLedger (env : Env) (st : Storage) (location : Uri)
    (window : Option Window) (contentType : CType) (l : Ledger) :
    Option (Verdict × Trace) × Ledger :=
  match shouldLoad env st location window contentType with
  | none => (none, l)
  | some (v, t) => (some (v, t), applyEvents l t.events)

/-- Concrete platform environment used to instantiate the theorems: a small
base-domain table, a parser that fails exactly on the string `"badurl"`, and
a third-party comparison that deems every pair of parseable URLs
third-party. -/
def envW : Env :=
  { baseDomain := fun h =>
      if h = "ads.example.com" then "example.com"
      else if h = "cdn.tracker.com" then "tracker.com"
      else if h = "a.ex.com" then "ex.com"
      else if h = "cdn.ex.com" then "ex.com"
      else h,
    parses := fun s => s ≠ "badurl",
    thirdPartyURI := fun _ _ => true }

/-- Concrete top-level window for the instantiations. -/
def twW : TopWin := ⟨7, some "https://site.com/"⟩

/-- Concrete context window (whose top is `twW`) for the instantiations. -/
def winW : Window := ⟨1, some twW⟩

theorem objGet_objSet_self (s : SettingsObj) (k : String) (v : SVal) :
    objGet (objSet s k v) k = some v := by
  induction s with
  | nil => simp [objSet, objGet]
  | cons p rest ih =>
    obtain ⟨k1, v1⟩ := p
    by_cases h : k1 = k <;> simp [objSet, objGet, h, ih]

theorem ledgerGet_ledgerSet_self (l : Ledger) (k : Nat) (v d : SettingsObj) :
    ledgerGet (ledgerSet l k v) k d = v := by
  induction l with
  | nil => simp [ledgerSet, ledgerGet]
  | cons p rest ih =>
    obtain ⟨k1, v1⟩ := p
    by_cases h : k1 = k <;> simp [ledgerSet, ledgerGet, h, ih]

theorem ledgerGet_ledgerDelete (l : Ledger) (k : Nat) (d : SettingsObj) :
    ledgerGet (ledgerDelete l k) k d = d := by
  induction l with
  | nil => rfl
  | cons p rest ih =>
    obtain ⟨k1, v1⟩ := p
    by_cases h : k1 = k
    · simpa [ledgerDelete, List.filter_cons, h] using ih
    · simpa [ledgerDelete, List.filter_cons, h, ledgerGet] using ih

theorem blockable_window_isSome {env : Env} {location : Uri}
    {window : Option Window} {contentType : CType}
    (h : Policy.isBlockableRequest env location window none contentType =
      some true) : ∃ w, window = some w := by
  cases window with
  | some w => exact ⟨w, rfl⟩
  | none =>
    unfold Policy.isBlockableRequest at h
    split at h
    · simp at h
    · split at h <;> simp_all

/-- C1: a request whose host is in `userRed` and which passes the
blockable-request gate is rejected by `shouldLoad` with exactly one decision
event, tagged `userblock`, regardless of the host's membership in
`blockedOrigins`, `preloads`, `userYellow` or `userGreen`: the userRed check
runs before the ignore rules and the heuristic block check (and passing the
gate forces a window, so the event is emitted). -/
theorem c1_userRed_always_blocks (env : Env) (st : Storage) (location : Uri)
    (window : Option Window) (contentType : CType)
    (hgate : Policy.isBlockableRequest env location window none contentType =
      some true)
    (hred : location.host ∈ st.userRed) :
    ∃ w, window = some w ∧
      shouldLoad env st location window contentType =
        some (Verdict.REJECT,
          ⟨[⟨"userblock", some w, location.host⟩], []⟩) := by
  obtain ⟨w, rfl⟩ := blockable_window_isSome hgate
  refine ⟨w, rfl, ?_⟩
  unfold shouldLoad
  rw [hgate]
  simp [Policy.isUserRedRequest, hred, Policy.emitIf]

/-- Witness for C1: a host that is in `userRed` and simultaneously in
`blockedOrigins`, `preloads`, `userYellow` and `userGreen` is still rejected
with the `userblock` tag. -/
theorem c1_userRed_always_blocks_witness :
    (Policy.isBlockableRequest envW
        ⟨"https", "ads.example.com", "https://ads.example.com/track.js"⟩
        (some winW) none CType.other = some true) ∧
    (("ads.example.com" : String) ∈
      (⟨["ads.example.com"], ["example.com"], ["ads.example.com"],
        ["ads.example.com"], ["ads.example.com"]⟩ : Storage).userRed) ∧
    (∃ w, some winW = some w ∧
      shouldLoad envW
        ⟨["ads.example.com"], ["example.com"], ["ads.example.com"],
          ["ads.example.com"], ["ads.example.com"]⟩
        ⟨"https", "ads.example.com", "https://ads.example.com/track.js"⟩
        (some winW) CType.other =
        some (Verdict.REJECT,
          ⟨[⟨"userblock", some w, "ads.example.com"⟩], []⟩)) :=
  ⟨by decide, by decide,
    c1_userRed_always_blocks envW
      ⟨["ads.example.com"], ["example.com"], ["ads.example.com"],
        ["ads.example.com"], ["ads.example.com"]⟩
      ⟨"https", "ads.example.com", "https://ads.example.com/track.js"⟩
      (some winW) CType.other (by decide) (by decide)⟩

/-- C9: evaluating the same `(location, context)` twice with the rule lists
unchanged yields the same verdict and the same decision tags both times; in
particular the ledger mutation performed by the first evaluation does not
change the outcome of the second. -/
theorem c9_evaluate_idempotent (env : Env) (st : Storage) (location : Uri)
    (window : Option Window) (contentType : CType) (l : Ledger) :
    (evaluateOnLedger env st location window contentType
        (evaluateOnLedger env st location window contentType l).2).1 =
      (evaluateOnLedger env st location window contentType l).1 := by
  cases h : shouldLoad env st location window contentType with
  | none => simp [evaluateOnLedger, h]
  | some vt => simp [evaluateOnLedger, h]

/-- C3 counterexample: with `blockedOrigins = {"ex.com"}` and `userYellow =
{"ex.com"}`, a request to host `cdn.ex.com` satisfies every hypothesis of the
claim (base domain heuristically blocked, the origin itself in no user set
and not preloaded), yet `shouldLoad` ACCEPTs with tag `usercookieblock`
instead of rejecting with tag `block`: the ignore rules also match on the
base domain in `userYellow`, and they run before the heuristic block. -/
theorem c3_counterexample :
    (envW.baseDomain "cdn.ex.com" ∈
      (⟨[], ["ex.com"], [], ["ex.com"], []⟩ : Storage).blockedOrigins) ∧
    (("cdn.ex.com" : String) ∉
      (⟨[], ["ex.com"], [], ["ex.com"], []⟩ : Storage).userRed) ∧
    (("cdn.ex.com" : String) ∉
      (⟨[], ["ex.com"], [], ["ex.com"], []⟩ : Storage).userYellow) ∧
    (("cdn.ex.com" : String) ∉
      (⟨[], ["ex.com"], [], ["ex.com"], []⟩ : Storage).userGreen) ∧
    (("cdn.ex.com" : String) ∉
      (⟨[], ["ex.com"], [], ["ex.com"], []⟩ : Storage).preloads) ∧
    (Policy.isBlockableRequest envW
      ⟨"https", "cdn.ex.com", "https://cdn.ex.com/x.js"⟩ (some winW) none
      CType.other = some true) ∧
    shouldLoad envW ⟨[], ["ex.com"], [], ["ex.com"], []⟩
      ⟨"https", "cdn.ex.com", "https://cdn.ex.com/x.js"⟩ (some winW)
      CType.other =
      some (Verdict.ACCEPT,
        ⟨[⟨"usercookieblock", some winW, "cdn.ex.com"⟩], ["cdn.ex.com"]⟩) := by
  decide

/-- C3 amended: if additionally the base domain is not in `userYellow`, a
third-party request whose base domain is in `blockedOrigins`, with the origin
in no user set and not preloaded, is rejected with the single decision event
tagged `block`, and delivering that event maps the origin to `block` in the
ledger table of the request's top-level context. -/
theorem c3_heuristic_block_amended (env : Env) (st : Storage) (location : Uri)
    (w : Window) (tw : TopWin) (contentType : CType) (l : Ledger)
    (hgate : Policy.isBlockableRequest env location (some w) none contentType =
      some true)
    (htop : w.top = some tw)
    (hbd : env.baseDomain location.host ∈ st.blockedOrigins)
    (hr : location.host ∉ st.userRed)
    (hg : location.host ∉ st.userGreen)
    (hyh : location.host ∉ st.userYellow)
    (hyb : env.baseDomain location.host ∉ st.userYellow)
    (hp : location.host ∉ st.preloads)
    (hhost : location.host ≠ "") :
    shouldLoad env st location (some w) contentType =
      some (Verdict.REJECT, ⟨[⟨"block", some w, location.host⟩], []⟩) ∧
    objGet (getCurrentSettings
        (applyEvents l [⟨"block", some w, location.host⟩]) tw)
      location.host = some (SVal.tag "block") := by
  constructor
  · unfold shouldLoad
    rw [hgate]
    simp [Policy.isUserRedRequest, hr, Policy.shouldIgnoreRequest,
      Policy.isUserGreenRequest, hg, Policy.isUserYellowRequest, hyh, hyb,
      hp, Policy.heuristicBlocksRequest, hbd, Trace.append, Trace.empty]
  · simp [applyEvents, applyEvent, updateSettingsListener, hhost, htop,
      getCurrentSettings, ledgerGet_ledgerSet_self, objGet_objSet_self]

/-- Witness for the amended C3, at the spec's concrete scenario: empty user
sets, `blockedOrigins = {"tracker.com"}`, a request to
`https://cdn.tracker.com/x.js` under top document `https://site.com/`. -/
theorem c3_heuristic_block_amended_witness :
    ((Policy.isBlockableRequest envW
        ⟨"https", "cdn.tracker.com", "https://cdn.tracker.com/x.js"⟩
        (some winW) none CType.other = some true) ∧
      winW.top = some twW ∧
      envW.baseDomain "cdn.tracker.com" ∈ (["tracker.com"] : List String) ∧
      ("cdn.tracker.com" : String) ≠ "") ∧
    (shouldLoad envW ⟨[], ["tracker.com"], [], [], []⟩
        ⟨"https", "cdn.tracker.com", "https://cdn.tracker.com/x.js"⟩
        (some winW) CType.other =
      some (Verdict.REJECT,
        ⟨[⟨"block", some winW, "cdn.tracker.com"⟩], []⟩) ∧
    objGet (getCurrentSettings
        (applyEvents []
          [⟨"block", some winW, "cdn.tracker.com"⟩]) twW)
      "cdn.tracker.com" = some (SVal.tag "block")) :=
  ⟨by decide,
    c3_heuristic_block_amended envW ⟨[], ["tracker.com"], [], [], []⟩
      ⟨"https", "cdn.tracker.com", "https://cdn.tracker.com/x.js"⟩
      winW twW CType.other [] (by decide) (by decide) (by decide) (by decide)
      (by decide) (by decide) (by decide) (by decide) (by decide)⟩

/-- C2 counterexample: with the origin `a.ex.com` preloaded, its base domain
`ex.com` heuristically blocked, and the origin itself in no user set, but the
base domain in `userYellow`, `shouldCookieblockRequest` still returns true
and clobbers the cookie — but the event it emits is tagged `usercookieblock`,
not `cookieblock` as the claim states. -/
theorem c2_counterexample :
    (("a.ex.com" : String) ∈
      (⟨["a.ex.com"], ["ex.com"], [], ["ex.com"], []⟩ : Storage).preloads) ∧
    (envW.baseDomain "a.ex.com" ∈
      (⟨["a.ex.com"], ["ex.com"], [], ["ex.com"], []⟩ :
        Storage).blockedOrigins) ∧
    (("a.ex.com" : String) ∉
      (⟨["a.ex.com"], ["ex.com"], [], ["ex.com"], []⟩ : Storage).userRed) ∧
    (("a.ex.com" : String) ∉
      (⟨["a.ex.com"], ["ex.com"], [], ["ex.com"], []⟩ : Storage).userYellow) ∧
    (("a.ex.com" : String) ∉
      (⟨["a.ex.com"], ["ex.com"], [], ["ex.com"], []⟩ : Storage).userGreen) ∧
    Policy.shouldCookieblockRequest envW
      ⟨["a.ex.com"], ["ex.com"], [], ["ex.com"], []⟩
      ⟨"https", "a.ex.com", "https://a.ex.com/x.js"⟩ (some winW) =
      (true, ⟨[⟨"usercookieblock", some winW, "a.ex.com"⟩], ["a.ex.com"]⟩) ∧
    (⟨"cookieblock", some winW, "a.ex.com"⟩ : DecisionEvent) ∉
      (Policy.shouldCookieblockRequest envW
        ⟨["a.ex.com"], ["ex.com"], [], ["ex.com"], []⟩
        ⟨"https", "a.ex.com", "https://a.ex.com/x.js"⟩
        (some winW)).2.events := by
  decide

/-- C2 amended: if additionally the base domain is not in `userYellow`, a
preloaded origin whose base domain is heuristically blocked, with the origin
in no user set, gets request verdict ACCEPT with no decision event (the
preloads ignore rule fires before the heuristic block), while
`shouldCookieblockRequest` returns true, emits the `cookieblock` event and
clobbers the origin's cookie. -/
theorem c2_preload_degrade_amended (env : Env) (st : Storage) (location : Uri)
    (window : Option Window) (contentType : CType)
    (hgate : Policy.isBlockableRequest env location window none contentType =
      some true)
    (hp : location.host ∈ st.preloads)
    (hbd : env.baseDomain location.host ∈ st.blockedOrigins)
    (hr : location.host ∉ st.userRed)
    (hyh : location.host ∉ st.userYellow)
    (hyb : env.baseDomain location.host ∉ st.userYellow)
    (hg : location.host ∉ st.userGreen) :
    shouldLoad env st location window contentType =
      some (Verdict.ACCEPT, Trace.empty) ∧
    Policy.shouldCookieblockRequest env st location window =
      (true, ⟨[⟨"cookieblock", window, location.host⟩], [location.host]⟩) := by
  constructor
  · unfold shouldLoad
    rw [hgate]
    simp [Policy.isUserRedRequest, hr, Policy.shouldIgnoreRequest,
      Policy.isUserGreenRequest, hg, Policy.isUserYellowRequest, hyh, hyb,
      hp, Trace.append, Trace.empty]
  · simp [Policy.shouldCookieblockRequest, Policy.isUserYellowRequest, hyh,
      hyb, Policy.heuristicCookieblocksRequest, hp, hbd, Trace.append,
      Trace.empty]

/-- Witness for the amended C2: `cdn.tracker.com` preloaded with base domain
`tracker.com` heuristically blocked and no user overrides. -/
theorem c2_preload_degrade_amended_witness :
    ((Policy.isBlockableRequest envW
        ⟨"https", "cdn.tracker.com", "https://cdn.tracker.com/x.js"⟩
        (some winW) none CType.other = some true) ∧
      ("cdn.tracker.com" : String) ∈ (["cdn.tracker.com"] : List String) ∧
      envW.baseDomain "cdn.tracker.com" ∈ (["tracker.com"] : List String)) ∧
    (shouldLoad envW ⟨["cdn.tracker.com"], ["tracker.com"], [], [], []⟩
        ⟨"https", "cdn.tracker.com", "https://cdn.tracker.com/x.js"⟩
        (some winW) CType.other = some (Verdict.ACCEPT, Trace.empty) ∧
    Policy.shouldCookieblockRequest envW
        ⟨["cdn.tracker.com"], ["tracker.com"], [], [], []⟩
        ⟨"https", "cdn.tracker.com", "https://cdn.tracker.com/x.js"⟩
        (some winW) =
      (true, ⟨[⟨"cookieblock", some winW, "cdn.tracker.com"⟩],
        ["cdn.tracker.com"]⟩)) :=
  ⟨by decide,
    c2_preload_degrade_amended envW
      ⟨["cdn.tracker.com"], ["tracker.com"], [], [], []⟩
      ⟨"https", "cdn.tracker.com", "https://cdn.tracker.com/x.js"⟩
      (some winW) CType.other (by decide) (by decide) (by decide) (by decide)
      (by decide) (by decide) (by decide)⟩

/-- C4 counterexample: with a top document URL that fails to parse
(`"badurl"`), `utils.isThirdPartyURI` throws instead of returning false, and
`shouldLoad` — far from degrading to ALLOW — treats the request as
third-party and REJECTS it when its base domain is heuristically blocked. -/
theorem c4_counterexample :
    isThirdPartyURI envW "https://cdn.tracker.com/x.js" "badurl" = none ∧
    isThirdPartyURI envW "https://cdn.tracker.com/x.js" "badurl" ≠
      some false ∧
    Policy.isBlockableRequest envW
      ⟨"https", "cdn.tracker.com", "https://cdn.tracker.com/x.js"⟩
      (some ⟨1, some ⟨7, some "badurl"⟩⟩) none CType.other = some true ∧
    shouldLoad envW ⟨[], ["tracker.com"], [], [], []⟩
      ⟨"https", "cdn.tracker.com", "https://cdn.tracker.com/x.js"⟩
      (some ⟨1, some ⟨7, some "badurl"⟩⟩) CType.other =
      some (Verdict.REJECT,
        ⟨[⟨"block", some ⟨1, some ⟨7, some "badurl"⟩⟩, "cdn.tracker.com"⟩],
          []⟩) := by
  decide

/-- C4 amended: a missing top window or missing top document URL makes the
request not blockable (ALLOW), but a parse failure in the third-party
comparison propagates out of `utils.isThirdPartyURI` as an exception (it
does not return false), and `isBlockableRequest` then treats the request as
third-party — it stays blockable; a null window makes `isBlockableRequest`
itself throw rather than allow. -/
theorem c4_failure_semantics_amended (env : Env) (location : Uri)
    (contentType : CType) (tid wid : Nat) (topHref : String)
    (hsch : Policy.hasWhitelistedScheme location = false)
    (hct : contentType ≠ CType.document)
    (hparse : env.parses topHref = false)
    (hhref : topHref ≠ "") :
    Policy.isBlockableRequest env location none none contentType = none ∧
    Policy.isBlockableRequest env location (some ⟨wid, none⟩) none
      contentType = some false ∧
    Policy.isBlockableRequest env location (some ⟨wid, some ⟨tid, none⟩⟩)
      none contentType = some false ∧
    isThirdPartyURI env location.spec topHref = none ∧
    Policy.isBlockableRequest env location
      (some ⟨wid, some ⟨tid, some topHref⟩⟩) none contentType = some true := by
  refine ⟨?_, ?_, ?_, ?_, ?_⟩ <;>
    simp [Policy.isBlockableRequest, hsch, hct, isThirdPartyURI, hparse,
      hhref]

/-- Witness for the amended C4 at a concrete request with top document URL
`"badurl"`. -/
theorem c4_failure_semantics_amended_witness :
    (Policy.hasWhitelistedScheme
        ⟨"https", "cdn.tracker.com", "https://cdn.tracker.com/x.js"⟩ =
        false ∧
      CType.other ≠ CType.document ∧
      envW.parses "badurl" = false ∧ ("badurl" : String) ≠ "") ∧
    (Policy.isBlockableRequest envW
        ⟨"https", "cdn.tracker.com", "https://cdn.tracker.com/x.js"⟩ none
        none CType.other = none ∧
      Policy.isBlockableRequest envW
        ⟨"https", "cdn.tracker.com", "https://cdn.tracker.com/x.js"⟩
        (some ⟨1, none⟩) none CType.other = some false ∧
      Policy.isBlockableRequest envW
        ⟨"https", "cdn.tracker.com", "https://cdn.tracker.com/x.js"⟩
        (some ⟨1, some ⟨7, none⟩⟩) none CType.other = some false ∧
      isThirdPartyURI envW "https://cdn.tracker.com/x.js" "badurl" = none ∧
      Policy.isBlockableRequest envW
        ⟨"https", "cdn.tracker.com", "https://cdn.tracker.com/x.js"⟩
        (some ⟨1, some ⟨7, some "badurl"⟩⟩) none CType.other = some true) :=
  ⟨by decide,
    c4_failure_semantics_amended envW
      ⟨"https", "cdn.tracker.com", "https://cdn.tracker.com/x.js"⟩
      CType.other 7 1 "badurl" (by decide) (by decide) (by decide)
      (by decide)⟩

/-- C5 counterexample: after the navigation-triggered per-context clear, a
read of the context's ledger returns the empty mapping — the entry is
deleted — not the `cleared: true` sentinel the claim states (the sentinel is
written only by the global `clearSettings`). -/
theorem c5_counterexample :
    getCurrentSettings
      (onLocationChange [(7, [("cdn.tracker.com", SVal.tag "block")])] twW 0)
      twW = [] ∧
    getCurrentSettings
      (onLocationChange [(7, [("cdn.tracker.com", SVal.tag "block")])] twW 0)
      twW ≠ [("cleared", SVal.flag true)] := by
  decide

/-- C5 amended: after the per-context clear triggered by a top-level
navigation that is not a same-document change, a read of that context's
ledger returns the empty mapping (the entry is deleted), independent of any
decisions recorded for that context before the navigation — not the
`cleared: true` sentinel. -/
theorem c5_navigation_clear_amended (l : Ledger) (tw : TopWin) (aFlags : Nat)
    (hf : aFlags ≠ LOCATION_CHANGE_SAME_DOCUMENT) :
    getCurrentSettings (onLocationChange l tw aFlags) tw = [] := by
  simp [onLocationChange, hf, clearSettingsListener, getCurrentSettings,
    ledgerGet_ledgerDelete]

/-- Witness for the amended C5: a ledger holding a prior `block` decision
for the context, cleared by a location change with flags 0. -/
theorem c5_navigation_clear_amended_witness :
    ((0 : Nat) ≠ LOCATION_CHANGE_SAME_DOCUMENT) ∧
    getCurrentSettings
      (onLocationChange [(7, [("cdn.tracker.com", SVal.tag "block")])] twW 0)
      twW = [] :=
  ⟨by decide,
    c5_navigation_clear_amended [(7, [("cdn.tracker.com", SVal.tag "block")])]
      twW 0 (by decide)⟩

/-- C6: staging `(origin, "block")` and committing puts the origin in
`userRed` and leaves it absent from `userYellow` and `userGreen` (it was in
neither beforehand); a subsequent staged `(origin, "reset")` commit removes
it from all three user sets. -/
theorem c6_commit_round_trip (st : Storage) (origin : String)
    (hy : origin ∉ st.userYellow) (hg : origin ∉ st.userGreen) :
    origin ∈ (handleNewSettings st (stageEdit [] origin "block")).userRed ∧
    origin ∉ (handleNewSettings st (stageEdit [] origin "block")).userYellow ∧
    origin ∉ (handleNewSettings st (stageEdit [] origin "block")).userGreen ∧
    origin ∉ (handleNewSettings
      (handleNewSettings st (stageEdit [] origin "block"))
      (stageEdit [] origin "reset")).userRed ∧
    origin ∉ (handleNewSettings
      (handleNewSettings st (stageEdit [] origin "block"))
      (stageEdit [] origin "reset")).userYellow ∧
    origin ∉ (handleNewSettings
      (handleNewSettings st (stageEdit [] origin "block"))
      (stageEdit [] origin "reset")).userGreen := by
  refine ⟨?_, ?_, ?_, ?_, ?_, ?_⟩ <;>
    simp [handleNewSettings, stageEdit, applyEdit, userStorage.addRed,
      userStorage.clearOrigin, hy, hg]
  by_cases h : origin ∈ st.userRed <;> simp [h]

/-- Witness for C6 at origin `tracker.com` over a storage with an unrelated
`userYellow` entry. -/
theorem c6_commit_round_trip_witness :
    (("tracker.com" : String) ∉
      (⟨[], [], [], ["other.com"], []⟩ : Storage).userYellow ∧
      ("tracker.com" : String) ∉
        (⟨[], [], [], ["other.com"], []⟩ : Storage).userGreen) ∧
    (("tracker.com" : String) ∈
      (handleNewSettings ⟨[], [], [], ["other.com"], []⟩
        (stageEdit [] "tracker.com" "block")).userRed ∧
    ("tracker.com" : String) ∉
      (handleNewSettings ⟨[], [], [], ["other.com"], []⟩
        (stageEdit [] "tracker.com" "block")).userYellow ∧
    ("tracker.com" : String) ∉
      (handleNewSettings ⟨[], [], [], ["other.com"], []⟩
        (stageEdit [] "tracker.com" "block")).userGreen ∧
    ("tracker.com" : String) ∉
      (handleNewSettings
        (handleNewSettings ⟨[], [], [], ["other.com"], []⟩
          (stageEdit [] "tracker.com" "block"))
        (stageEdit [] "tracker.com" "reset")).userRed ∧
    ("tracker.com" : String) ∉
      (handleNewSettings
        (handleNewSettings ⟨[], [], [], ["other.com"], []⟩
          (stageEdit [] "tracker.com" "block"))
        (stageEdit [] "tracker.com" "reset")).userYellow ∧
    ("tracker.com" : String) ∉
      (handleNewSettings
        (handleNewSettings ⟨[], [], [], ["other.com"], []⟩
          (stageEdit [] "tracker.com" "block"))
        (stageEdit [] "tracker.com" "reset")).userGreen) :=
  ⟨⟨by decide, by decide⟩,
    c6_commit_round_trip ⟨[], [], [], ["other.com"], []⟩ "tracker.com"
      (by decide) (by decide)⟩

/-- C7 counterexample: host `a.ex.com` is in `userYellow` by exact origin
match (its base domain is not); `isUserYellowRequest` returns true and emits
`usercookieblock` but clobbers no cookie, refuting the claim that clobbering
happens in both the exact-origin and the base-domain match case. -/
theorem c7_counterexample :
    (("a.ex.com" : String) ∈
      (⟨[], [], [], ["a.ex.com"], []⟩ : Storage).userYellow) ∧
    Policy.isUserYellowRequest envW ⟨[], [], [], ["a.ex.com"], []⟩
      ⟨"https", "a.ex.com", "https://a.ex.com/x.js"⟩ (some winW) =
      (true, ⟨[⟨"usercookieblock", some winW, "a.ex.com"⟩], []⟩) ∧
    (Policy.isUserYellowRequest envW ⟨[], [], [], ["a.ex.com"], []⟩
      ⟨"https", "a.ex.com", "https://a.ex.com/x.js"⟩
      (some winW)).2.clobbered = [] := by
  decide

/-- C7 amended: whenever the origin or its base domain is in `userYellow`
(and a window is present), `isUserYellowRequest` returns true and emits one
`usercookieblock` event; cookie-clobbering is triggered only in the
base-domain match case, not on an exact origin match. -/
theorem c7_userYellow_amended (env : Env) (st : Storage) (location : Uri)
    (w : Window)
    (h : location.host ∈ st.userYellow ∨
      env.baseDomain location.host ∈ st.userYellow) :
    Policy.isUserYellowRequest env st location (some w) =
      (true, ⟨[⟨"usercookieblock", some w, location.host⟩],
        if location.host ∈ st.userYellow then [] else [location.host]⟩) := by
  by_cases hh : location.host ∈ st.userYellow
  · simp [Policy.isUserYellowRequest, hh, Policy.emitIf]
  · rcases h with h | h
    · exact absurd h hh
    · simp [Policy.isUserYellowRequest, hh, h, Policy.emitIf]

/-- Witness for the amended C7: a base-domain match (`ex.com` in
`userYellow`, request host `a.ex.com`), where the origin's cookie is
clobbered. -/
theorem c7_userYellow_amended_witness :
    (("a.ex.com" : String) ∈ (["ex.com"] : List String) ∨
      envW.baseDomain "a.ex.com" ∈ (["ex.com"] : List String)) ∧
    Policy.isUserYellowRequest envW ⟨[], [], [], ["ex.com"], []⟩
      ⟨"https", "a.ex.com", "https://a.ex.com/x.js"⟩ (some winW) =
      (true, ⟨[⟨"usercookieblock", some winW, "a.ex.com"⟩],
        if ("a.ex.com" : String) ∈
          (⟨[], [], [], ["ex.com"], []⟩ : Storage).userYellow then []
        else ["a.ex.com"]⟩) :=
  ⟨by decide,
    c7_userYellow_amended envW ⟨[], [], [], ["ex.com"], []⟩
      ⟨"https", "a.ex.com", "https://a.ex.com/x.js"⟩ winW (by decide)⟩

/-- C8: a staged entry with an unrecognized action falls through every arm of
the commit switch — no user set changes for that origin — while all other
staged edits in the same commit are still applied. -/
theorem c8_invalid_action_skipped (st : Storage)
    (pre post : List (String × String)) (origin action : String)
    (h1 : action ≠ "reset") (h2 : action ≠ "block")
    (h3 : action ≠ "cookieblock") (h4 : action ≠ "noaction") :
    handleNewSettings st (pre ++ (origin, action) :: post) =
      handleNewSettings st (pre ++ post) := by
  induction pre generalizing st with
  | nil => simp [handleNewSettings, applyEdit, h1, h2, h3, h4]
  | cons p rest ih =>
    simpa [handleNewSettings] using ih (applyEdit st p.1 p.2)

/-- Witness for C8: a commit staging a valid `block`, an unrecognized
`bogus`, and a valid `noaction` equals the commit without the `bogus`
entry. -/
theorem c8_invalid_action_skipped_witness :
    (("bogus" : String) ≠ "reset" ∧ ("bogus" : String) ≠ "block" ∧
      ("bogus" : String) ≠ "cookieblock" ∧
      ("bogus" : String) ≠ "noaction") ∧
    handleNewSettings ⟨[], [], [], [], []⟩
      ([("a.com", "block")] ++ ("c.com", "bogus") ::
        [("b.com", "noaction")]) =
      handleNewSettings ⟨[], [], [], [], []⟩
        ([("a.com", "block")] ++ [("b.com", "noaction")]) :=
  ⟨⟨by decide, by decide, by decide, by decide⟩,
    c8_invalid_action_skipped ⟨[], [], [], [], []⟩ [("a.com", "block")]
      [("b.com", "noaction")] "c.com" "bogus" (by decide) (by decide)
      (by decide) (by decide)⟩

/-- C10 counterexample: with the request host in `userRed` but no window
derivable from the load context, `shouldLoad` does not return REJECT: for a
non-whitelisted, non-document load it dereferences the null window and
throws (`none`), never reaching the userRed check. -/
theorem c10_counterexample :
    (("ads.example.com" : String) ∈
      (⟨[], [], ["ads.example.com"], [], []⟩ : Storage).userRed) ∧
    Policy.hasWhitelistedScheme
      ⟨"https", "ads.example.com", "https://ads.example.com/x.js"⟩ =
      false ∧
    shouldLoad envW ⟨[], [], ["ads.example.com"], [], []⟩
      ⟨"https", "ads.example.com", "https://ads.example.com/x.js"⟩ none
      CType.other = none := by
  decide

/-- C10 amended: `isUserRedRequest` without a window returns true and emits
no event, so `shouldBlockRequest` invoked without a window blocks while the
ledger stays untouched; but `shouldLoad` itself never reaches the userRed
check without a window — for a non-whitelisted, non-document load it throws
on the null window instead of returning REJECT. -/
theorem c10_userRed_no_window_amended (env : Env) (st : Storage)
    (location : Uri) (contentType : CType) (l : Ledger)
    (hred : location.host ∈ st.userRed)
    (hsch : Policy.hasWhitelistedScheme location = false)
    (hct : contentType ≠ CType.document) :
    Policy.isUserRedRequest st location none = (true, Trace.empty) ∧
    Policy.shouldBlockRequest env st location none = (true, Trace.empty) ∧
    applyEvents l
      (Policy.shouldBlockRequest env st location none).2.events = l ∧
    shouldLoad env st location none contentType = none := by
  have h1 : Policy.isUserRedRequest st location none = (true, Trace.empty) := by
    simp [Policy.isUserRedRequest, hred, Policy.emitIf, Trace.empty]
  refine ⟨h1, ?_, ?_, ?_⟩
  · simp [Policy.shouldBlockRequest, h1]
  · simp [Policy.shouldBlockRequest, h1, applyEvents, Trace.empty]
  · simp [shouldLoad, Policy.isBlockableRequest, hsch, hct]

/-- Witness for the amended C10 at a concrete user-blocked host with no
window and a non-empty prior ledger. -/
theorem c10_userRed_no_window_amended_witness :
    ((("ads.example.com" : String) ∈
        (⟨[], [], ["ads.example.com"], [], []⟩ : Storage).userRed) ∧
      Policy.hasWhitelistedScheme
        ⟨"https", "ads.example.com", "https://ads.example.com/x.js"⟩ =
        false ∧
      CType.other ≠ CType.document) ∧
    (Policy.isUserRedRequest ⟨[], [], ["ads.example.com"], [], []⟩
        ⟨"https", "ads.example.com", "https://ads.example.com/x.js"⟩ none =
        (true, Trace.empty) ∧
      Policy.shouldBlockRequest envW ⟨[], [], ["ads.example.com"], [], []⟩
        ⟨"https", "ads.example.com", "https://ads.example.com/x.js"⟩ none =
        (true, Trace.empty) ∧
      applyEvents [(7, [("x.com", SVal.tag "noaction")])]
        (Policy.shouldBlockRequest envW ⟨[], [], ["ads.example.com"], [], []⟩
          ⟨"https", "ads.example.com", "https://ads.example.com/x.js"⟩
          none).2.events = [(7, [("x.com", SVal.tag "noaction")])] ∧
      shouldLoad envW ⟨[], [], ["ads.example.com"], [], []⟩
        ⟨"https", "ads.example.com", "https://ads.example.com/x.js"⟩ none
        CType.other = none) :=
  ⟨⟨by decide, by decide, by decide⟩,
    c10_userRed_no_window_amended envW ⟨[], [], ["ads.example.com"], [], []⟩
      ⟨"https", "ads.example.com", "https://ads.example.com/x.js"⟩
      CType.other [(7, [("x.com", SVal.tag "noaction")])] (by decide)
      (by decide) (by decide)⟩

end PB
